import Mathlib

/-!
Verification of the Tell-Tale Bot core (risk scorer, report formatter,
scam registry, cache / rate-limiter primitives, RPC provider rotation,
address checksumming) against its natural-language specification.

JavaScript strings are modelled as lists of Unicode code points,
JavaScript numbers that hold exact small quantities as `ℚ`/`ℕ`/`ℤ`,
and the stateful classes as explicit state-passing functions.
-/

namespace TellTale

/-- JavaScript strings, modelled as lists of Unicode code points. -/
abbrev JSStr := List Char

/-- Embed a Lean string literal as a JS string. -/
def jstr (s : String) : JSStr := s.data

/-- ASCII lowercasing of one character.  JS `toLowerCase` agrees with this on
every character that actually occurs in the bot's data (hex addresses, ASCII
descriptions; the few non-ASCII characters used are caseless). -/
def charToLower (c : Char) : Char :=
  if 'A' ≤ c ∧ c ≤ 'Z' then Char.ofNat (c.toNat + 32) else c

/-- JS `String.prototype.toLowerCase`. -/
def toLower (s : JSStr) : JSStr := s.map charToLower

/-- JS `String.prototype.startsWith`. -/
def jsStartsWith (s pre : JSStr) : Bool := pre.isPrefixOf s

/-- JS `String.prototype.includes` (substring occurrence). -/
def jsIncludes (s sub : JSStr) : Bool :=
  (List.range (s.length + 1)).any fun i => sub.isPrefixOf (s.drop i)

/-- Decimal rendering of a natural number (JS template interpolation). -/
def natStr (n : ℕ) : JSStr := (Nat.repr n).data

/-- Decimal rendering of an integer (JS template interpolation). -/
def intStr (i : ℤ) : JSStr := (Int.repr i).data

/-- JS `Math.round`: round half towards positive infinity. -/
def jsRound (q : ℚ) : ℤ := ⌊q + 1/2⌋

/-- viem `formatEther`: decimal string of `v / 10^18` wei with trailing
zeros trimmed and the point omitted for whole numbers. -/
def formatEtherStr (v : ℕ) : JSStr :=
  let intPart := v / 10 ^ 18
  let frac := v % 10 ^ 18
  let fracDigits := (Nat.repr frac).data
  let padded := List.replicate (18 - fracDigits.length) '0' ++ fracDigits
  let trimmed := (padded.reverse.dropWhile (· = '0')).reverse
  if trimmed = [] then natStr intPart else natStr intPart ++ jstr "." ++ trimmed

/-! ## Core type definitions (src/types/index.ts) -/

/-- Risk level verdicts. -/
inductive RiskLevel where
  | LOW
  | MEDIUM
  | HIGH
deriving DecidableEq, Repr

/-- Individual risk signal from analysis. -/
structure RiskSignal where
  name : JSStr
  weight : ℚ
  score : ℚ
  description : JSStr
  evidence : Option (List JSStr) := none
deriving DecidableEq, Repr

/-- Flag from scam database matching. -/
structure ScamFlag where
  source : JSStr
  category : JSStr
  description : JSStr
  reportedAt : Option JSStr := none
deriving DecidableEq, Repr

/-- Raw transaction data from Basescan.  The source stores `timeStamp` and
`value` as decimal strings and converts with `parseInt` / `BigInt`; the
numeric values are modelled directly.  The source fields `from` / `to` are
Lean keywords and are rendered `fromAddr` / `toAddr`. -/
structure BasescanTransaction where
  blockNumber : JSStr
  timeStamp : ℕ
  hash : JSStr
  fromAddr : JSStr
  toAddr : JSStr
  value : ℕ
  gas : JSStr
  gasUsed : JSStr
  isError : JSStr
  functionName : JSStr
  contractAddress : JSStr
  input : JSStr
deriving DecidableEq, Repr

/-- Token transfer from Basescan. -/
structure BasescanTokenTransfer where
  blockNumber : JSStr
  timeStamp : ℕ
  hash : JSStr
  fromAddr : JSStr
  toAddr : JSStr
  value : ℕ
  tokenName : JSStr
  tokenSymbol : JSStr
  tokenDecimal : JSStr
  contractAddress : JSStr
deriving DecidableEq, Repr

/-- Wallet data aggregated from all sources. -/
structure WalletData where
  address : JSStr
  balance : ℕ
  transactionCount : ℕ
  transactions : List BasescanTransaction
  tokenTransfers : List BasescanTokenTransfer
  internalTransactions : List BasescanTransaction
  accountAge : Option ℕ
  firstTxTimestamp : Option ℕ
  isContract : Bool
  scamFlags : List ScamFlag
deriving DecidableEq, Repr

/-! ## Risk scoring engine (src/services/riskScorer.ts) -/

/-- `data.firstTxTimestamp ? new Date(...).toISOString().split('T')[0] : 'unknown'`.
JS truthiness sends both `null` and `0` to `'unknown'`; the calendar-date
rendering of a nonzero epoch second count is abstracted to its decimal form
(no claim inspects this evidence string). -/
def firstTxDateStr (ts : Option ℕ) : JSStr :=
  match ts with
  | none => jstr "unknown"
  | some t => if t = 0 then jstr "unknown" else natStr t

/-- `scoreAccountAge` — Account Age signal (weight 10%). -/
def scoreAccountAge (data : WalletData) : RiskSignal :=
  match data.accountAge with
  | none =>
      { name := jstr "Account Age", weight := 0.1, score := 70,
        description := jstr "No transaction history found — unable to determine account age.",
        evidence := some [jstr "No transactions on record"] }
  | some age =>
      let days : ℚ := (age : ℚ) / 86400
      let evidence := [jstr "First transaction: " ++ firstTxDateStr data.firstTxTimestamp]
      if days < 7 then
        { name := jstr "Account Age", weight := 0.1, score := 90,
          description := jstr "Account is very new (" ++ intStr (jsRound days) ++ jstr " days old).",
          evidence := some evidence }
      else if days < 30 then
        { name := jstr "Account Age", weight := 0.1, score := 60,
          description := jstr "Account is relatively new (" ++ intStr (jsRound days) ++ jstr " days old).",
          evidence := some evidence }
      else if days < 180 then
        { name := jstr "Account Age", weight := 0.1, score := 30,
          description := jstr "Account is " ++ intStr (jsRound days) ++ jstr " days old.",
          evidence := some evidence }
      else
        { name := jstr "Account Age", weight := 0.1, score := 10,
          description := jstr "Account is " ++ intStr (jsRound (days / 30)) ++
            jstr " months old — well-established.",
          evidence := some evidence }

/-- `scoreTransactionVolume` — Transaction Volume signal (weight 15%). -/
def scoreTransactionVolume (data : WalletData) : RiskSignal :=
  let txCount := data.transactionCount
  let mk : ℚ → JSStr → RiskSignal := fun score description =>
    { name := jstr "Transaction Volume", weight := 0.15, score := score,
      description := description,
      evidence := some [jstr "Total transactions analyzed: " ++ natStr txCount] }
  if txCount = 0 then
    mk 50 (jstr "No transactions found.")
  else if txCount < 5 then
    mk 60 (jstr "Very low transaction count (" ++ natStr txCount ++ jstr ").")
  else if txCount < 20 then
    mk 30 (jstr "Low transaction count (" ++ natStr txCount ++ jstr ").")
  else if 500 < txCount then
    mk 40 (jstr "Unusually high transaction count (" ++ natStr txCount ++
      jstr ") — could indicate automated activity.")
  else
    mk 10 (jstr "Normal transaction volume (" ++ natStr txCount ++ jstr " transactions).")

/-- `scoreScamInteractions` — Scam Database signal (weight 25%). -/
def scoreScamInteractions (data : WalletData) : RiskSignal :=
  let flagCount := data.scamFlags.length
  if flagCount = 0 then
    { name := jstr "Scam Database", weight := 0.25, score := 0,
      description := jstr "No matches in known scam databases." }
  else
    { name := jstr "Scam Database", weight := 0.25,
      score := min 100 ((flagCount : ℚ) * 40),
      description := jstr "Found " ++ natStr flagCount ++ jstr " flag(s) in scam databases.",
      evidence := some (data.scamFlags.map fun f =>
        jstr "[" ++ f.source ++ jstr "] " ++ f.category ++ jstr ": " ++ f.description) }

/-- Insert into an ascending list (used to model JS `sort((a, b) => a - b)`). -/
def insertAsc (x : ℕ) : List ℕ → List ℕ
  | [] => [x]
  | y :: ys => if x ≤ y then x :: y :: ys else y :: insertAsc x ys

/-- Ascending sort, modelling JS `Array.prototype.sort((a, b) => a - b)`. -/
def sortAsc (l : List ℕ) : List ℕ := l.foldr insertAsc []

/-- The cluster scan over the ascending timestamp list: some adjacent pair
closer than 3600 seconds. -/
def hasClusterScan : List ℕ → Bool
  | a :: b :: rest => (b - a < 3600) || hasClusterScan (b :: rest)
  | _ => false

/-- `parseFloat(formatEther(BigInt(tx.value))) > 1`: the transfer exceeds one
native unit.  (The double rounding of `parseFloat` within a few ulps of
exactly 1 ETH is not decision-relevant to any claim.) -/
def isLargeValue (v : ℕ) : Bool := 10 ^ 18 < v

/-- `scoreLargeTransfers` — Large Transfers signal (weight 15%). -/
def scoreLargeTransfers (data : WalletData) : RiskSignal :=
  let txs := data.transactions
  if txs = [] then
    { name := jstr "Large Transfers", weight := 0.15, score := 20,
      description := jstr "No transactions to analyze for large transfers." }
  else
    let outgoing := txs.filter fun tx => toLower tx.fromAddr = toLower data.address
    let largeOutgoing := outgoing.filter fun tx => isLargeValue tx.value
    let largeTimestamps := sortAsc (largeOutgoing.map (·.timeStamp))
    let hasCluster := hasClusterScan largeTimestamps
    let evidence := some ((largeOutgoing.take 3).map fun tx =>
      formatEtherStr tx.value ++ jstr " ETH → " ++ tx.toAddr.take 10 ++
        jstr "... (tx: " ++ tx.hash.take 10 ++ jstr "...)")
    if hasCluster then
      { name := jstr "Large Transfers", weight := 0.15, score := 80,
        description := jstr "Detected cluster of " ++ natStr largeOutgoing.length ++
          jstr " large outgoing transfers in short succession.",
        evidence := evidence }
    else if 5 < largeOutgoing.length then
      { name := jstr "Large Transfers", weight := 0.15, score := 50,
        description := natStr largeOutgoing.length ++ jstr " large outgoing transfers detected.",
        evidence := evidence }
    else if 0 < largeOutgoing.length then
      { name := jstr "Large Transfers", weight := 0.15, score := 20,
        description := natStr largeOutgoing.length ++
          jstr " large outgoing transfer(s) — within normal range.",
        evidence := evidence }
    else
      { name := jstr "Large Transfers", weight := 0.15, score := 5,
        description := jstr "No large outgoing transfers detected.",
        evidence := evidence }

/-- The max-uint256 marker searched for inside unlimited-approval call data. -/
def maxUintMarker : JSStr :=
  jstr "ffffffffffffffffffffffffffffffffffffffffffffffffffffffffffffffff"

/-- `scoreContractApprovals` — Contract Approvals signal (weight 15%). -/
def scoreContractApprovals (data : WalletData) : RiskSignal :=
  let approveTxs := data.transactions.filter fun tx =>
    jsIncludes (toLower tx.functionName) (jstr "approve") ||
      jsStartsWith tx.input (jstr "0x095ea7b3")
  let unlimitedApprovals := data.transactions.filter fun tx =>
    jsStartsWith tx.input (jstr "0x095ea7b3") && jsIncludes tx.input maxUintMarker
  if 5 < unlimitedApprovals.length then
    { name := jstr "Contract Approvals", weight := 0.15, score := 70,
      description := natStr unlimitedApprovals.length ++
        jstr " unlimited token approvals — elevated risk of drainer interaction." }
  else if 10 < approveTxs.length then
    { name := jstr "Contract Approvals", weight := 0.15, score := 50,
      description := natStr approveTxs.length ++ jstr " contract approval transactions detected." }
  else if 0 < approveTxs.length then
    { name := jstr "Contract Approvals", weight := 0.15, score := 15,
      description := natStr approveTxs.length ++ jstr " contract approval(s) — normal DeFi usage." }
  else
    { name := jstr "Contract Approvals", weight := 0.15, score := 5,
      description := jstr "No contract approvals detected." }

/-- `scoreFundingSource` — Funding Source signal (weight 10%). -/
def scoreFundingSource (data : WalletData) : RiskSignal :=
  let incoming := data.transactions.filter fun tx => toLower tx.toAddr = toLower data.address
  if incoming = [] then
    { name := jstr "Funding Source", weight := 0.1, score := 40,
      description := jstr "No incoming transactions found — unable to analyze funding source." }
  else
    let flaggedFunders := incoming.filter fun tx =>
      data.scamFlags.any fun f => jsIncludes (toLower f.description) (toLower tx.fromAddr)
    if 0 < flaggedFunders.length then
      { name := jstr "Funding Source", weight := 0.1, score := 90,
        description := jstr "Received funds from " ++ natStr flaggedFunders.length ++
          jstr " flagged address(es).",
        evidence := some (flaggedFunders.map fun tx =>
          jstr "From: " ++ tx.fromAddr.take 10 ++ jstr "... — " ++
            formatEtherStr tx.value ++ jstr " ETH") }
    else
      { name := jstr "Funding Source", weight := 0.1, score := 10,
        description := jstr "Funding sources appear normal — no known flagged origins." }

/-- `scoreTokenDiversity` — Token Diversity signal (weight 10%). -/
def scoreTokenDiversity (data : WalletData) : RiskSignal :=
  let tokenCount := ((data.tokenTransfers.map fun t => toLower t.contractAddress).dedup).length
  if 50 < tokenCount then
    { name := jstr "Token Diversity", weight := 0.1, score := 60,
      description := jstr "Interacted with " ++ natStr tokenCount ++
        jstr " unique tokens — may include scam/airdrop tokens." }
  else if 20 < tokenCount then
    { name := jstr "Token Diversity", weight := 0.1, score := 30,
      description := jstr "Interacted with " ++ natStr tokenCount ++ jstr " unique tokens." }
  else if 0 < tokenCount then
    { name := jstr "Token Diversity", weight := 0.1, score := 10,
      description := jstr "Interacted with " ++ natStr tokenCount ++
        jstr " unique token(s) — normal range." }
  else
    { name := jstr "Token Diversity", weight := 0.1, score := 15,
      description := jstr "No token transfer activity detected." }

/-- The seven signals in the order `computeRiskScore` pushes them. -/
def riskSignals (data : WalletData) : List RiskSignal :=
  [scoreAccountAge data, scoreTransactionVolume data, scoreScamInteractions data,
   scoreLargeTransfers data, scoreContractApprovals data, scoreFundingSource data,
   scoreTokenDiversity data]

/-- The corroboration boost: 20 for three or more scam flags, 15 for two,
10 for one, else 0. -/
def scamBoost (data : WalletData) : ℚ :=
  if 3 ≤ data.scamFlags.length then 20
  else if 2 ≤ data.scamFlags.length then 15
  else if 1 ≤ data.scamFlags.length then 10
  else 0

/-- `signals.reduce((sum, s) => sum + s.score * s.weight, 0) + scamBoost`. -/
def weightedTotal (data : WalletData) : ℚ :=
  (riskSignals data).foldl (fun sum s => sum + s.score * s.weight) 0 + scamBoost data

/-- Result record of `computeRiskScore`. -/
structure RiskScoreResult where
  score : ℤ
  level : RiskLevel
  signals : List RiskSignal
deriving DecidableEq, Repr

/-- `computeRiskScore` — weighted total, rounded, clamped into [0, 100], and
classified into a tier. -/
def computeRiskScore (data : WalletData) : RiskScoreResult :=
  let score := jsRound (weightedTotal data)
  let clampedScore := max 0 (min 100 score)
  { score := clampedScore,
    level := if clampedScore ≤ 30 then .LOW else if clampedScore ≤ 60 then .MEDIUM else .HIGH,
    signals := riskSignals data }

/-! ## TtlCache (src/utils/rateLimit.ts) -/

/-- State of a `TtlCache<T>`: key → (value, absolute `expiresAt`). -/
def TtlCacheState (V : Type) := JSStr → Option (V × ℕ)

/-- A freshly constructed, empty cache. -/
def ttlEmpty (V : Type) : TtlCacheState V := fun _ => none

/-- `TtlCache.set(key, value)`: stores with absolute expiry `now + ttlMs`,
overwriting any existing entry. -/
def ttlSet (st : TtlCacheState V) (ttlMs now : ℕ) (key : JSStr) (value : V) :
    TtlCacheState V :=
  fun k => if k = key then some (value, now + ttlMs) else st k

/-- `TtlCache.get(key)`: returns the value if present and unexpired; on
`Date.now() > expiresAt` it deletes the entry and returns `undefined`.
The result is paired with the post-call state (lazy eviction). -/
def ttlGet (st : TtlCacheState V) (now : ℕ) (key : JSStr) :
    Option V × TtlCacheState V :=
  match st key with
  | none => (none, st)
  | some (value, expiresAt) =>
      if expiresAt < now then (none, fun k => if k = key then none else st k)
      else (some value, st)

/-! ## UserRateLimiter (src/utils/rateLimit.ts) -/

/-- State of a `UserRateLimiter`: FID → recorded call timestamps. -/
def URLState := ℕ → List ℕ

/-- A freshly constructed limiter: no queries recorded. -/
def urlEmpty : URLState := fun _ => []

/-- `UserRateLimiter.checkAndRecord(fid)` at time `now`; `maxQueries` and
`windowMs` are the constructor arguments.  Keeps the timestamps within the
window, denies once the limit is reached (recording nothing), and otherwise
records `now` immediately.  `now - t` is JS number subtraction; for `t > now`
both it and ℕ-truncated subtraction land below `windowMs`, so the ℕ model
agrees with the source. -/
def checkAndRecord (maxQueries windowMs : ℕ) (queries : URLState) (fid now : ℕ) :
    Bool × URLState :=
  let userTimestamps := (queries fid).filter fun t => now - t < windowMs
  if maxQueries ≤ userTimestamps.length then (false, queries)
  else (true, fun g => if g = fid then userTimestamps ++ [now] else queries g)

/-- Run a sequence of `(fid, timestamp)` calls through `checkAndRecord`,
collecting the allow/deny results and the final state. -/
def runCalls (maxQueries windowMs : ℕ) (queries : URLState) :
    List (ℕ × ℕ) → List Bool × URLState
  | [] => ([], queries)
  | (fid, now) :: rest =>
      let r := checkAndRecord maxQueries windowMs queries fid now
      let rr := runCalls maxQueries windowMs r.2 rest
      (r.1 :: rr.1, rr.2)

/-- `k` identical calls for one FID at one time `t`, starting from `m` recorded
timestamps `t`: the i-th call is allowed exactly when `m + i < N`, the FID ends
with `m + min k (N - m)` recorded timestamps, and other FIDs are untouched. -/
lemma runCalls_replicate_same (N W : ℕ) (hW : 0 < W) (fid t : ℕ) :
    ∀ (k m : ℕ) (q : URLState), q fid = List.replicate m t → m ≤ N →
      (runCalls N W q (List.replicate k (fid, t))).1 =
          (List.range k).map (fun i => decide (m + i < N)) ∧
        (runCalls N W q (List.replicate k (fid, t))).2 fid =
          List.replicate (m + min k (N - m)) t ∧
        ∀ g, g ≠ fid → (runCalls N W q (List.replicate k (fid, t))).2 g = q g := by
  intro k
  induction k with
  | zero =>
      intro m q hq _
      simp [runCalls, hq]
  | succ k ih =>
      intro m q hq hm
      have hfilter : ((q fid).filter fun s => t - s < W) = List.replicate m t := by
        rw [hq]
        rw [List.filter_eq_self]
        intro a ha
        have : a = t := List.eq_of_mem_replicate ha
        subst this
        simpa using hW
      rw [List.replicate_succ]
      by_cases hlt : m < N
      · have hnot : ¬ N ≤ (List.replicate m t).length := by
          simpa using hlt
        have hstep : checkAndRecord N W q fid t =
            (true, fun g => if g = fid then List.replicate m t ++ [t] else q g) := by
          simp only [checkAndRecord, hfilter]
          rw [if_neg hnot]
        have hq' : (fun g => if g = fid then List.replicate m t ++ [t] else q g) fid =
            List.replicate (m + 1) t := by
          simp [List.replicate_succ']
        obtain ⟨ih1, ih2, ih3⟩ := ih (m + 1)
          (fun g => if g = fid then List.replicate m t ++ [t] else q g) hq' hlt
        refine ⟨?_, ?_, ?_⟩
        · simp only [runCalls, hstep, ih1]
          rw [List.range_succ_eq_map]
          simp only [List.map_cons, List.map_map]
          congr 1
          · have hm0 : m + 0 < N := by omega
            simp [hm0]
            omega
          · apply List.map_congr_left
            intro i _
            simp only [Function.comp, decide_eq_decide]
            omega
        · simp only [runCalls, hstep, ih2]
          congr 1
          omega
        · intro g hg
          simp only [runCalls, hstep]
          rw [ih3 g hg]
          simp [hg]
      · have hyes : N ≤ (List.replicate m t).length := by
          simp
          omega
        have hstep : checkAndRecord N W q fid t = (false, q) := by
          simp only [checkAndRecord, hfilter]
          rw [if_pos hyes]
        obtain ⟨ih1, ih2, ih3⟩ := ih m q hq hm
        refine ⟨?_, ?_, ?_⟩
        · simp only [runCalls, hstep, ih1]
          rw [List.range_succ_eq_map]
          simp only [List.map_cons, List.map_map]
          congr 1
          · have hm0 : ¬ (m + 0 < N) := by omega
            simp [hm0]
            omega
          · apply List.map_congr_left
            intro i _
            simp only [Function.comp, decide_eq_decide]
            omega
        · simp only [runCalls, hstep, ih2]
          congr 1
          omega
        · intro g hg
          simp only [runCalls, hstep]
          exact ih3 g hg

/-- C7: with limit `N` and window `W`, a fresh identity gets exactly `N`
allowed calls in one window, the `(N+1)`-th is denied, other identities'
state is untouched, and once the window has elapsed the identity is allowed
again. -/
theorem userRateLimiter_checkAndRecord_spec (N W fid t t' : ℕ) (q0 : URLState)
    (hN : 0 < N) (hW : 0 < W) (ht : t + W ≤ t')
    (h0 : q0 fid = []) :
    (runCalls N W q0 (List.replicate (N + 1) (fid, t))).1 =
        List.replicate N true ++ [false] ∧
      (∀ g', g' ≠ fid →
        (runCalls N W q0 (List.replicate (N + 1) (fid, t))).2 g' = q0 g') ∧
      (checkAndRecord N W (runCalls N W q0 (List.replicate (N + 1) (fid, t))).2
          fid t').1 = true := by
  have h0' : q0 fid = List.replicate 0 t := by simpa using h0
  obtain ⟨h1, h2, h3⟩ :=
    runCalls_replicate_same N W hW fid t (N + 1) 0 q0 h0' (Nat.zero_le N)
  refine ⟨?_, fun g' hg' => h3 g' hg', ?_⟩
  · rw [h1, List.range_succ, List.map_append]
    congr 1
    · rw [List.eq_replicate_iff]
      refine ⟨by simp, ?_⟩
      intro b hb
      obtain ⟨i, hi, rfl⟩ := List.mem_map.mp hb
      have : i < N := by
        have := List.mem_range.mp hi
        omega
      simpa using this
    · simp
  · have hfid : (runCalls N W q0 (List.replicate (N + 1) (fid, t))).2 fid =
        List.replicate N t := by
      rw [h2]
      congr 1
      omega
    have hdrop : ((List.replicate N t).filter fun s => t' - s < W) = [] := by
      rw [List.filter_eq_nil_iff]
      intro a ha
      have : a = t := List.eq_of_mem_replicate ha
      subst this
      simp only [decide_eq_true_eq]
      omega
    have hN' : N ≠ 0 := by omega
    simp only [checkAndRecord, hfid, hdrop]
    simp [hN']

/-- C7 witness: limit 2, window 10 — calls at time 0 for FID 1 give
allow, allow, deny; FID 2's state is untouched; FID 1 is allowed again at
time 10. -/
theorem userRateLimiter_checkAndRecord_spec_witness :
    (runCalls 2 10 urlEmpty (List.replicate 3 (1, 0))).1 =
        List.replicate 2 true ++ [false] ∧
      (∀ g', g' ≠ 1 →
        (runCalls 2 10 urlEmpty (List.replicate 3 (1, 0))).2 g' = urlEmpty g') ∧
      (checkAndRecord 2 10 (runCalls 2 10 urlEmpty (List.replicate 3 (1, 0))).2
          1 10).1 = true :=
  userRateLimiter_checkAndRecord_spec 2 10 1 0 10 urlEmpty (by norm_num)
    (by norm_num) (by norm_num) rfl

/-- C8: a `get` after `set` within the TTL returns exactly the stored value;
once `now > expiresAt` the `get` returns absent — no matter how much later it
happens — and lazily evicts the entry. -/
theorem ttlCache_roundtrip_and_expiry {V : Type} (ttlMs : ℕ) (st : TtlCacheState V)
    (key : JSStr) (value : V) (t₁ t₂ : ℕ) :
    (t₂ ≤ t₁ + ttlMs →
        (ttlGet (ttlSet st ttlMs t₁ key value) t₂ key).1 = some value) ∧
      (t₁ + ttlMs < t₂ →
        (ttlGet (ttlSet st ttlMs t₁ key value) t₂ key).1 = none ∧
          (ttlGet (ttlSet st ttlMs t₁ key value) t₂ key).2 key = none) := by
  have hkey : ttlSet st ttlMs t₁ key value key = some (value, t₁ + ttlMs) := by
    simp [ttlSet]
  constructor
  · intro h
    simp only [ttlGet, hkey]
    rw [if_neg (by omega)]
  · intro h
    simp only [ttlGet, hkey]
    rw [if_pos (by omega)]
    exact ⟨rfl, by simp⟩

/-- C8 witness: TTL 50, set at time 0 — a get at 30 returns the stored value
and a get at 80 returns absent and evicts. -/
theorem ttlCache_roundtrip_and_expiry_witness :
    (ttlGet (ttlSet (ttlEmpty ℕ) 50 0 (jstr "k") 7) 30 (jstr "k")).1 = some 7 ∧
      (ttlGet (ttlSet (ttlEmpty ℕ) 50 0 (jstr "k") 7) 80 (jstr "k")).1 = none ∧
      (ttlGet (ttlSet (ttlEmpty ℕ) 50 0 (jstr "k") 7) 80 (jstr "k")).2 (jstr "k") =
        none :=
  ⟨(ttlCache_roundtrip_and_expiry 50 (ttlEmpty ℕ) (jstr "k") 7 0 30).1 (by norm_num),
   ((ttlCache_roundtrip_and_expiry 50 (ttlEmpty ℕ) (jstr "k") 7 0 80).2 (by norm_num)).1,
   ((ttlCache_roundtrip_and_expiry 50 (ttlEmpty ℕ) (jstr "k") 7 0 80).2 (by norm_num)).2⟩

/-- C10: a denied `checkAndRecord` call leaves the limiter state completely
unchanged — the denied attempt is never recorded, so it cannot count toward
the limit or extend the denial window. -/
theorem checkAndRecord_denied_leaves_state (N W : ℕ) (q : URLState) (fid now : ℕ)
    (h : (checkAndRecord N W q fid now).1 = false) :
    (checkAndRecord N W q fid now).2 = q := by
  revert h
  simp only [checkAndRecord]
  split
  · intro _
    rfl
  · intro h
    simp at h

/-- C10 witness: limit 1, a state already holding one in-window timestamp —
the call is denied and the state is unchanged. -/
theorem checkAndRecord_denied_leaves_state_witness :
    (checkAndRecord 1 1000 (fun _ => [0]) 7 5).1 = false ∧
      (checkAndRecord 1 1000 (fun _ => [0]) 7 5).2 = fun _ => [0] :=
  ⟨by decide, checkAndRecord_denied_leaves_state 1 1000 (fun _ => [0]) 7 5 (by decide)⟩

/-! ## Known contract registry (src/data/knownContracts.ts) -/

/-- A verified-good contract entry. -/
structure KnownContract where
  address : JSStr
  label : JSStr
  category : JSStr
deriving DecidableEq, Repr

/-- Verified contracts on Base that are known-good. -/
def knownContracts : List KnownContract := [
  ⟨jstr "0x3fc91a3afd70395cd496c647d5a6cc9d4b2b7fad", jstr "Uniswap UniversalRouter", jstr "dex"⟩,
  ⟨jstr "0x2626664c2603336e57b271c5c0b26f421741e481", jstr "Uniswap V3 SwapRouter02", jstr "dex"⟩,
  ⟨jstr "0x198ef79f1f515f02dfe9e3115ed9fc07183f02fc", jstr "Uniswap V2 Router", jstr "dex"⟩,
  ⟨jstr "0x6cdda07560f6c01c3f9ee090e98368b06c1405cb", jstr "Aerodrome Router", jstr "dex"⟩,
  ⟨jstr "0xcf77a3ba9a5ca399b7c97c74d54e5b1beb874e43", jstr "Aerodrome V2 Router", jstr "dex"⟩,
  ⟨jstr "0x833589fcd6edb6e08f4c7c32d4f71b54bda02913", jstr "USDC (Base)", jstr "token"⟩,
  ⟨jstr "0x50c5725949a6f0c72e6c4a641f24049a917db0cb", jstr "DAI (Base)", jstr "token"⟩,
  ⟨jstr "0xd9aaec86b65d86f6a7b5b1b0c42ffa531710b6ca", jstr "USDbC (Base)", jstr "token"⟩,
  ⟨jstr "0x4200000000000000000000000000000000000006", jstr "WETH (Base)", jstr "token"⟩,
  ⟨jstr "0x4200000000000000000000000000000000000010", jstr "Base L2StandardBridge", jstr "bridge"⟩,
  ⟨jstr "0x4200000000000000000000000000000000000007", jstr "Base L2CrossDomainMessenger", jstr "bridge"⟩,
  ⟨jstr "0x49048044d57e1c92a77f79988d21fa8faf74e97e", jstr "Base Portal (L1)", jstr "bridge"⟩,
  ⟨jstr "0xa238dd80c259a72e81d7e4664a9801593f98d1c5", jstr "Aave V3 Pool (Base)", jstr "lending"⟩,
  ⟨jstr "0x46e6b214b524310239732d51387075e0e70970bf", jstr "Moonwell USDC Market", jstr "lending"⟩,
  ⟨jstr "0x4200000000000000000000000000000000000015", jstr "Base L1Block", jstr "infra"⟩,
  ⟨jstr "0x420000000000000000000000000000000000000f", jstr "Base GasPriceOracle", jstr "infra"⟩]

/-- Set of lowercase whitelisted addresses (modelled as a list; only
membership is consumed). -/
def whitelistedAddresses : List JSStr := knownContracts.map fun c => toLower c.address

/-- `isWhitelisted`: known-good contract check, case-insensitive. -/
def isWhitelisted (address : JSStr) : Bool := whitelistedAddresses.contains (toLower address)

/-! ## Scam seed data (src/data/scamSeeds.ts) -/

/-- A scam seed entry. -/
structure ScamSeedEntry where
  address : JSStr
  category : JSStr
  description : JSStr
deriving DecidableEq, Repr

/-- Known scam/phishing/drainer addresses (seed dataset). -/
def scamSeedData : List ScamSeedEntry := [
  ⟨jstr "0x0000000000000000000000000000000000000000", jstr "burn",
    jstr "Null/burn address — tokens sent here are lost forever."⟩,
  ⟨jstr "0xd90e2f925da726b50c4ed8d0fb90ad053324f31b", jstr "mixer",
    jstr "Tornado Cash Router (Ethereum) — funds from this address may indicate laundering."⟩,
  ⟨jstr "0x722122df12d4e14e13ac3b6895a86e84145b6967", jstr "mixer",
    jstr "Tornado Cash Proxy (Ethereum) — associated with mixing/obfuscation."⟩,
  ⟨jstr "0x12d66f87a04a9e220743712ce6d9bb1b5616b8fc", jstr "mixer",
    jstr "Tornado Cash 0.1 ETH pool (Ethereum)."⟩,
  ⟨jstr "0x47ce0c6ed5b0ce3d3a51fdb1c52dc66a7c3c2936", jstr "mixer",
    jstr "Tornado Cash 1 ETH pool (Ethereum)."⟩,
  ⟨jstr "0x910cbd523d972eb0a6f4cae4618ad62622b39dbf", jstr "mixer",
    jstr "Tornado Cash 10 ETH pool (Ethereum)."⟩,
  ⟨jstr "0xa160cdab225685da1d56aa342ad8841c3b53f291", jstr "mixer",
    jstr "Tornado Cash 100 ETH pool (Ethereum)."⟩,
  ⟨jstr "0xfbFEE3CD66697758164bFD36e3cA0Ea73480E9a2", jstr "scam",
    jstr "Suspected scam contract on Base — community-reported."⟩]

/-! ## Scam database service (src/services/scamDb.ts) -/

/-- The value stored in the local scam map: category and description. -/
structure LocalScamRecord where
  category : JSStr
  description : JSStr
deriving DecidableEq, Repr

/-- `Map.prototype.get`: first (and, for maps built by `set`, only) entry
with the key. -/
def jsMapGet (m : List (JSStr × V)) (k : JSStr) : Option V :=
  (m.find? fun e => e.1 = k).map Prod.snd

/-- `Map.prototype.set`: overwrite the existing entry in place, else append. -/
def jsMapSet (m : List (JSStr × V)) (k : JSStr) (v : V) : List (JSStr × V) :=
  if (m.map Prod.fst).contains k then
    m.map fun e => if e.1 = k then (k, v) else e
  else m ++ [(k, v)]

/-- `seedLocalDb(entries)`: bulk-load entries into the local scam map,
normalizing the key to lowercase. -/
def seedLocalDb (db : List (JSStr × LocalScamRecord)) (entries : List ScamSeedEntry) :
    List (JSStr × LocalScamRecord) :=
  entries.foldl
    (fun m entry => jsMapSet m (toLower entry.address) ⟨entry.category, entry.description⟩) db

/-- `batchCheckLocal(addresses)`: local-only batch check over the seeded
scam map `localScamDb`; whitelisted addresses are skipped entirely, and only
matching addresses get an entry in the returned map. -/
def batchCheckLocal (localScamDb : List (JSStr × LocalScamRecord))
    (addresses : List JSStr) : List (JSStr × ScamFlag) :=
  addresses.foldl
    (fun results addr =>
      if isWhitelisted addr then results
      else
        match jsMapGet localScamDb (toLower addr) with
        | some m => jsMapSet results addr ⟨jstr "local", m.category, m.description, none⟩
        | none => results)
    []

/-- Every element of `jsMapSet m k v` is an element of `m` or the new pair. -/
lemma mem_jsMapSet {m : List (JSStr × V)} {k : JSStr} {v : V} {a : JSStr × V}
    (h : a ∈ jsMapSet m k v) : a ∈ m ∨ a = (k, v) := by
  unfold jsMapSet at h
  split at h
  · obtain ⟨e, he, rfl⟩ := List.mem_map.mp h
    by_cases hk : e.1 = k
    · right
      simp [hk]
    · left
      simpa [hk] using he
  · rcases List.mem_append.mp h with h' | h'
    · exact Or.inl h'
    · right
      simpa using h'

/-- The accumulator invariant of `batchCheckLocal`'s fold: a flag entry is
never for a whitelisted address and always stems from a local-table hit. -/
lemma batchCheckLocal_fold_invariant (db : List (JSStr × LocalScamRecord)) :
    ∀ (addresses : List JSStr) (acc : List (JSStr × ScamFlag)),
      (∀ e ∈ acc, isWhitelisted e.1 = false ∧
        ∃ m, jsMapGet db (toLower e.1) = some m ∧
          e.2 = ⟨jstr "local", m.category, m.description, none⟩) →
      ∀ e ∈ addresses.foldl
        (fun results addr =>
          if isWhitelisted addr then results
          else
            match jsMapGet db (toLower addr) with
            | some m => jsMapSet results addr ⟨jstr "local", m.category, m.description, none⟩
            | none => results)
        acc,
        isWhitelisted e.1 = false ∧
          ∃ m, jsMapGet db (toLower e.1) = some m ∧
            e.2 = ⟨jstr "local", m.category, m.description, none⟩ := by
  intro addresses
  induction addresses with
  | nil =>
      intro acc hacc e he
      exact hacc e he
  | cons addr rest ih =>
      intro acc hacc e he
      simp only [List.foldl_cons] at he
      refine ih _ ?_ e he
      by_cases hw : isWhitelisted addr
      · intro e' he'
        rw [if_pos hw] at he'
        exact hacc e' he'
      · intro e' he'
        rw [if_neg hw] at he'
        revert he'
        cases hdb : jsMapGet db (toLower addr) with
        | none =>
            intro he'
            exact hacc e' he'
        | some m =>
            intro he'
            rcases mem_jsMapSet he' with h' | h'
            · exact hacc e' h'
            · subst h'
              refine ⟨by simpa using hw, m, hdb, rfl⟩

/-- C6: if `batchCheckLocal` returns a flag for an address, that address is
not whitelisted (whitelist membership is case-insensitive) and its lowercase
form matched the local scam table, with the flag built from the matching
record; all other addresses are simply absent from the returned map. -/
theorem batchCheckLocal_no_whitelisted_match (db : List (JSStr × LocalScamRecord))
    (addresses : List JSStr) (addr : JSStr) (flag : ScamFlag)
    (h : jsMapGet (batchCheckLocal db addresses) addr = some flag) :
    isWhitelisted addr = false ∧
      ∃ m, jsMapGet db (toLower addr) = some m ∧
        flag = ⟨jstr "local", m.category, m.description, none⟩ := by
  unfold jsMapGet at h
  cases hfind : (batchCheckLocal db addresses).find? fun e => e.1 = addr with
  | none =>
      rw [hfind] at h
      simp at h
  | some e =>
      rw [hfind] at h
      have hmem : e ∈ batchCheckLocal db addresses := List.mem_of_find?_eq_some hfind
      have hkey : e.1 = addr := by
        have := List.find?_some hfind
        simpa using this
      have hflag : e.2 = flag := by
        simpa using h
      have hinv := batchCheckLocal_fold_invariant db addresses [] (by simp) e hmem
      rw [hkey, hflag] at hinv
      exact hinv

/-- C6 witness: the seeded local table flags the Tornado Cash router looked
up in mixed case, and the result satisfies the theorem's guarantees. -/
theorem batchCheckLocal_no_whitelisted_match_witness :
    isWhitelisted (jstr "0xd90E2F925DA726b50C4Ed8D0Fb90Ad053324F31b") = false ∧
      ∃ m, jsMapGet (seedLocalDb [] scamSeedData)
          (toLower (jstr "0xd90E2F925DA726b50C4Ed8D0Fb90Ad053324F31b")) = some m ∧
        (⟨jstr "local", jstr "mixer",
          jstr "Tornado Cash Router (Ethereum) — funds from this address may indicate laundering.",
          none⟩ : ScamFlag) = ⟨jstr "local", m.category, m.description, none⟩ :=
  batchCheckLocal_no_whitelisted_match (seedLocalDb [] scamSeedData)
    [jstr "0xd90E2F925DA726b50C4Ed8D0Fb90Ad053324F31b"]
    (jstr "0xd90E2F925DA726b50C4Ed8D0Fb90Ad053324F31b")
    ⟨jstr "local", jstr "mixer",
      jstr "Tornado Cash Router (Ethereum) — funds from this address may indicate laundering.",
      none⟩
    (by decide)

/-! ## RPC provider fallback (src/services/rpcFallback.ts) -/

/-- Config for RPC provider fallback. -/
structure RpcProviderConfig where
  name : JSStr
  url : JSStr
  priority : ℕ
deriving DecidableEq, Repr

/-- A viem public client is fully determined by the URL it was constructed
from (`createBaseClient(provider.url)`), so clients are modelled by URL. -/
abbrev RpcClient := JSStr

/-- The module-level mutable state: `activeProviderIndex` and the lazily
constructed `activeClient`. -/
structure RpcState where
  activeProviderIndex : ℕ
  activeClient : Option RpcClient
deriving DecidableEq, Repr

/-- `getClient()`: return the cached client, else construct one from the
provider at the active index (throwing when the index has no provider). -/
def getClient (providers : List RpcProviderConfig) (s : RpcState) :
    Except JSStr (RpcClient × RpcState) :=
  match s.activeClient with
  | some c => .ok (c, s)
  | none =>
      match providers[s.activeProviderIndex]? with
      | none => .error (jstr "No RPC providers available")
      | some provider => .ok (provider.url, { s with activeClient := some provider.url })

/-- `rotateProvider()`: advance the active index mod the provider count and
discard the cached client. -/
def rotateProvider (providers : List RpcProviderConfig) (s : RpcState) : RpcState :=
  { activeProviderIndex := (s.activeProviderIndex + 1) % providers.length,
    activeClient := none }

/-- The `withFallback` retry loop.  The operation is modelled as a function
from the client to `Option` (promise resolution/rejection); any failure in
the `try` body — a `getClient` throw included — is caught and answered by a
rotation.  The third component counts how many times the operation itself
was attempted. -/
def withFallbackAux (providers : List RpcProviderConfig) (fn : RpcClient → Option T) :
    ℕ → RpcState → ℕ → Except JSStr T × RpcState × ℕ
  | 0, s, calls => (.error (jstr "All RPC providers failed"), s, calls)
  | k + 1, s, calls =>
      match getClient providers s with
      | .error _ => withFallbackAux providers fn k (rotateProvider providers s) calls
      | .ok (client, s₁) =>
          match fn client with
          | some v => (.ok v, s₁, calls + 1)
          | none => withFallbackAux providers fn k (rotateProvider providers s₁) (calls + 1)

/-- `withFallback(fn)`: up to `providers.length` total attempts. -/
def withFallback (providers : List RpcProviderConfig) (fn : RpcClient → Option T)
    (s : RpcState) : Except JSStr T × RpcState × ℕ :=
  withFallbackAux providers fn providers.length s 0

/-- The URL of the provider at index `i` (taken mod the provider count). -/
def providerUrlAt (providers : List RpcProviderConfig) (i : ℕ) : JSStr :=
  (providers.getD (i % providers.length) ⟨[], [], 0⟩).url

/-- Invariant: any cached client was built from the provider at the active
index. -/
def rpcClientConsistent (providers : List RpcProviderConfig) (s : RpcState) : Prop :=
  s.activeClient = none ∨
    ∃ p, providers[s.activeProviderIndex]? = some p ∧ s.activeClient = some p.url

/-- Loop invariant for `withFallbackAux`: with `k` attempts left from index
`d`, the attempt count grows by at most `k`, the terminal error appears
exactly when providers `d, d+1, …, d+k-1` (mod `n`) all fail, and the first
success in that rotation order is the result. -/
lemma withFallbackAux_spec {T : Type} (providers : List RpcProviderConfig)
    (fn : RpcClient → Option T) :
    ∀ (k : ℕ) (s : RpcState) (calls : ℕ),
      s.activeProviderIndex < providers.length →
      rpcClientConsistent providers s →
      (withFallbackAux providers fn k s calls).2.2 ≤ calls + k ∧
        ((withFallbackAux providers fn k s calls).1 =
            .error (jstr "All RPC providers failed") ↔
          ∀ j < k, fn (providerUrlAt providers (s.activeProviderIndex + j)) = none) ∧
        (∀ j v, j < k →
          (∀ i < j, fn (providerUrlAt providers (s.activeProviderIndex + i)) = none) →
          fn (providerUrlAt providers (s.activeProviderIndex + j)) = some v →
          (withFallbackAux providers fn k s calls).1 = .ok v) := by
  intro k
  induction k with
  | zero =>
      intro s calls _ _
      refine ⟨by simp [withFallbackAux], by simp [withFallbackAux], ?_⟩
      intro j v hj
      omega
  | succ k ih =>
      intro s calls hidx hcons
      set n := providers.length with hn
      set d := s.activeProviderIndex with hd
      have hnpos : 0 < n := by omega
      obtain ⟨p, hp⟩ : ∃ p, providers[d]? = some p :=
        ⟨providers.get ⟨d, hidx⟩, List.getElem?_eq_getElem hidx⟩
      have hpurl : providerUrlAt providers d = p.url := by
        unfold providerUrlAt
        rw [Nat.mod_eq_of_lt hidx]
        rw [List.getD_eq_getElem?_getD, hp]
        rfl
      -- getClient yields the provider-at-d client and a consistent state
      obtain ⟨s₁, hget, hs₁idx, hs₁cons⟩ :
          ∃ s₁, getClient providers s = .ok (p.url, s₁) ∧
            s₁.activeProviderIndex = d ∧ rpcClientConsistent providers s₁ := by
        rcases hcons with hnone | ⟨q, hq, hcq⟩
        · refine ⟨{ s with activeClient := some p.url }, ?_, rfl, ?_⟩
          · simp [getClient, hnone, hp]
          · exact Or.inr ⟨p, hp, rfl⟩
        · have hqp : q = p := by
            rw [hq] at hp
            exact Option.some_injective _ hp
          rw [hqp] at hcq
          refine ⟨s, ?_, rfl, Or.inr ⟨p, hp, hcq⟩⟩
          simp [getClient, hcq]
      have hrotidx : (rotateProvider providers s₁).activeProviderIndex < n := by
        simp only [rotateProvider]
        exact Nat.mod_lt _ hnpos
      have hrotcons : rpcClientConsistent providers (rotateProvider providers s₁) :=
        Or.inl rfl
      have hshift : ∀ j : ℕ,
          providerUrlAt providers ((rotateProvider providers s₁).activeProviderIndex + j) =
            providerUrlAt providers (d + 1 + j) := by
        intro j
        simp only [rotateProvider, hs₁idx]
        unfold providerUrlAt
        rw [Nat.mod_add_mod]
      cases hfn : fn p.url with
      | some v =>
          have heq : withFallbackAux providers fn (k + 1) s calls = (.ok v, s₁, calls + 1) := by
            simp [withFallbackAux, hget, hfn]
          refine ⟨by rw [heq]; dsimp only; omega, ?_, ?_⟩
          · rw [heq]
            constructor
            · intro h
              exact absurd h (by simp)
            · intro h
              have := h 0 (by omega)
              rw [Nat.add_zero, hpurl] at this
              rw [hfn] at this
              exact absurd this (by simp)
          · intro j w hj hprior hw
            rcases Nat.eq_zero_or_pos j with rfl | hjpos
            · rw [Nat.add_zero, hpurl, hfn] at hw
              rw [heq]
              rw [Option.some_injective _ hw]
            · have := hprior 0 hjpos
              rw [Nat.add_zero, hpurl, hfn] at this
              exact absurd this (by simp)
      | none =>
          have heq : withFallbackAux providers fn (k + 1) s calls =
              withFallbackAux providers fn k (rotateProvider providers s₁) (calls + 1) := by
            simp [withFallbackAux, hget, hfn]
          obtain ⟨ih1, ih2, ih3⟩ := ih (rotateProvider providers s₁) (calls + 1) hrotidx hrotcons
          refine ⟨by rw [heq]; omega, ?_, ?_⟩
          · rw [heq, ih2]
            constructor
            · intro h j hj
              rcases Nat.eq_zero_or_pos j with rfl | hjpos
              · rw [Nat.add_zero, hpurl]
                exact hfn
              · have := h (j - 1) (by omega)
                rw [hshift] at this
                have harg : d + 1 + (j - 1) = d + j := by omega
                rw [harg] at this
                exact this
            · intro h j hj
              rw [hshift]
              have := h (j + 1) (by omega)
              have harg : d + 1 + j = d + (j + 1) := by omega
              rw [harg]
              exact this
          · intro j w hj hprior hw
            rcases Nat.eq_zero_or_pos j with rfl | hjpos
            · rw [Nat.add_zero, hpurl, hfn] at hw
              exact absurd hw (by simp)
            · rw [heq]
              refine ih3 (j - 1) w (by omega) ?_ ?_
              · intro i hi
                rw [hshift]
                have := hprior (i + 1) (by omega)
                have harg : d + 1 + i = d + (i + 1) := by omega
                rw [harg]
                exact this
              · rw [hshift]
                have harg : d + 1 + (j - 1) = d + j := by omega
                rw [harg]
                exact hw

/-- C9: `withFallback` attempts the operation at most `providerCount` times,
rotation advances the index to `(index + 1) mod providerCount` and discards
the cached client, the first provider to succeed (in rotation order from the
active index) supplies the returned value, and the terminal
"all providers failed" error is raised exactly when every provider in the
list fails. -/
theorem withFallback_exhausts_providers {T : Type} (providers : List RpcProviderConfig)
    (fn : RpcClient → Option T) (s : RpcState)
    (hidx : s.activeProviderIndex < providers.length)
    (hcons : rpcClientConsistent providers s) :
    (withFallback providers fn s).2.2 ≤ providers.length ∧
      (∀ s' : RpcState, rotateProvider providers s' =
        ⟨(s'.activeProviderIndex + 1) % providers.length, none⟩) ∧
      ((withFallback providers fn s).1 = .error (jstr "All RPC providers failed") ↔
        ∀ i < providers.length, fn (providerUrlAt providers i) = none) ∧
      (∀ j v, j < providers.length →
        (∀ i < j, fn (providerUrlAt providers (s.activeProviderIndex + i)) = none) →
        fn (providerUrlAt providers (s.activeProviderIndex + j)) = some v →
        (withFallback providers fn s).1 = .ok v) := by
  have hnpos : 0 < providers.length := by omega
  obtain ⟨h1, h2, h3⟩ :=
    withFallbackAux_spec providers fn providers.length s 0 hidx hcons
  refine ⟨by simpa [withFallback] using h1, fun s' => rfl, ?_, ?_⟩
  · rw [show (withFallback providers fn s).1 =
      (withFallbackAux providers fn providers.length s 0).1 from rfl]
    rw [h2]
    constructor
    · intro h i hi
      have hmod : (i + providers.length - s.activeProviderIndex) % providers.length <
          providers.length := Nat.mod_lt _ hnpos
      have := h ((i + providers.length - s.activeProviderIndex) % providers.length) hmod
      unfold providerUrlAt at this ⊢
      rw [Nat.add_mod_mod] at this
      have harg : s.activeProviderIndex + (i + providers.length - s.activeProviderIndex) =
          i + providers.length := by omega
      rw [harg] at this
      rw [Nat.add_mod_right, Nat.mod_eq_of_lt hi] at this
      rw [Nat.mod_eq_of_lt hi]
      exact this
    · intro h j hj
      have hmm : providerUrlAt providers ((s.activeProviderIndex + j) % providers.length) =
          providerUrlAt providers (s.activeProviderIndex + j) := by
        unfold providerUrlAt
        rw [Nat.mod_mod_of_dvd _ dvd_rfl]
      rw [← hmm]
      exact h _ (Nat.mod_lt _ hnpos)
  · exact h3

/-- C9 witness: three providers, the first fails, the second succeeds — the
loop returns the second provider's result with at most three attempts. -/
theorem withFallback_exhausts_providers_witness :
    (withFallback [⟨jstr "Base Public", jstr "https://mainnet.base.org", 1⟩,
        ⟨jstr "Ankr", jstr "https://rpc.ankr.com/base", 3⟩,
        ⟨jstr "1RPC", jstr "https://1rpc.io/base", 4⟩]
      (fun c => if c = jstr "https://rpc.ankr.com/base" then some 42 else none)
      ⟨0, none⟩).1 = .ok 42 :=
  (withFallback_exhausts_providers _ _ _ (by norm_num) (Or.inl rfl)).2.2.2 1 42
    (by norm_num) (by intro i hi; interval_cases i; decide) (by decide)

/-! ## Risk scorer facts -/

/-- Projection lemma: the score returned by `computeRiskScore`. -/
lemma computeRiskScore_score (data : WalletData) :
    (computeRiskScore data).score = max 0 (min 100 (jsRound (weightedTotal data))) := rfl

/-- Projection lemma: the signals returned by `computeRiskScore`. -/
lemma computeRiskScore_signals (data : WalletData) :
    (computeRiskScore data).signals = riskSignals data := rfl

/-- Projection lemma: the level returned by `computeRiskScore`. -/
lemma computeRiskScore_level (data : WalletData) :
    (computeRiskScore data).level =
      (if max 0 (min 100 (jsRound (weightedTotal data))) ≤ 30 then RiskLevel.LOW
       else if max 0 (min 100 (jsRound (weightedTotal data))) ≤ 60 then RiskLevel.MEDIUM
       else RiskLevel.HIGH) := rfl

/-- Account Age: weight 0.1 and score within [10, 90]. -/
lemma scoreAccountAge_facts (data : WalletData) :
    (scoreAccountAge data).weight = 0.1 ∧
      10 ≤ (scoreAccountAge data).score ∧ (scoreAccountAge data).score ≤ 90 := by
  rcases hage : data.accountAge with _ | a
  · simp only [scoreAccountAge, hage]
    norm_num
  · simp only [scoreAccountAge, hage]
    split_ifs <;> norm_num

/-- Account Age at seven or more days: score within [10, 60]. -/
lemma scoreAccountAge_age7 (data : WalletData) (a : ℕ) (ha : data.accountAge = some a)
    (h7 : 604800 ≤ a) :
    10 ≤ (scoreAccountAge data).score ∧ (scoreAccountAge data).score ≤ 60 := by
  have hdays : (7 : ℚ) ≤ (a : ℚ) / 86400 := by
    rw [le_div_iff₀ (by norm_num : (0 : ℚ) < 86400)]
    have : (604800 : ℚ) ≤ (a : ℚ) := by exact_mod_cast h7
    linarith
  simp only [scoreAccountAge, ha]
  split_ifs with h1 h2 h3
  · exact absurd h1 (by push_neg; linarith)
  · exact ⟨by norm_num, by norm_num⟩
  · exact ⟨by norm_num, by norm_num⟩
  · exact ⟨by norm_num, by norm_num⟩

/-- Transaction Volume: weight 0.15 and score within [10, 60]. -/
lemma scoreTransactionVolume_facts (data : WalletData) :
    (scoreTransactionVolume data).weight = 0.15 ∧
      10 ≤ (scoreTransactionVolume data).score ∧ (scoreTransactionVolume data).score ≤ 60 := by
  simp only [scoreTransactionVolume]
  split_ifs <;> refine ⟨rfl, by norm_num, by norm_num⟩

/-- Scam Database: weight 0.25 and score within [0, 100]. -/
lemma scoreScamInteractions_facts (data : WalletData) :
    (scoreScamInteractions data).weight = 0.25 ∧
      0 ≤ (scoreScamInteractions data).score ∧ (scoreScamInteractions data).score ≤ 100 := by
  simp only [scoreScamInteractions]
  split_ifs
  · exact ⟨rfl, by norm_num, by norm_num⟩
  · refine ⟨rfl, ?_, ?_⟩
    · simp only [le_min_iff]
      constructor
      · norm_num
      · positivity
    · exact min_le_left _ _

/-- Scam Database with three or more flags scores exactly 100. -/
lemma scoreScamInteractions_of_three (data : WalletData)
    (h : 3 ≤ data.scamFlags.length) : (scoreScamInteractions data).score = 100 := by
  simp only [scoreScamInteractions]
  rw [if_neg (by omega)]
  have h3 : (3 : ℚ) ≤ (data.scamFlags.length : ℚ) := by exact_mod_cast h
  simp only []
  rw [min_eq_left (by linarith)]

/-- Scam Database with exactly one flag scores exactly 40. -/
lemma scoreScamInteractions_of_one (data : WalletData)
    (h : data.scamFlags.length = 1) : (scoreScamInteractions data).score = 40 := by
  simp only [scoreScamInteractions, h]
  norm_num

/-- Large Transfers: weight 0.15 and score within [5, 80]. -/
lemma scoreLargeTransfers_facts (data : WalletData) :
    (scoreLargeTransfers data).weight = 0.15 ∧
      5 ≤ (scoreLargeTransfers data).score ∧ (scoreLargeTransfers data).score ≤ 80 := by
  simp only [scoreLargeTransfers]
  split_ifs <;> refine ⟨rfl, by norm_num, by norm_num⟩

/-- Contract Approvals: weight 0.15 and score within [5, 70]. -/
lemma scoreContractApprovals_facts (data : WalletData) :
    (scoreContractApprovals data).weight = 0.15 ∧
      5 ≤ (scoreContractApprovals data).score ∧ (scoreContractApprovals data).score ≤ 70 := by
  simp only [scoreContractApprovals]
  split_ifs <;> refine ⟨rfl, by norm_num, by norm_num⟩

/-- Funding Source: weight 0.1 and score within [10, 90]. -/
lemma scoreFundingSource_facts (data : WalletData) :
    (scoreFundingSource data).weight = 0.1 ∧
      10 ≤ (scoreFundingSource data).score ∧ (scoreFundingSource data).score ≤ 90 := by
  simp only [scoreFundingSource]
  split_ifs <;> refine ⟨rfl, by norm_num, by norm_num⟩

/-- Token Diversity: weight 0.1 and score within [10, 60]. -/
lemma scoreTokenDiversity_facts (data : WalletData) :
    (scoreTokenDiversity data).weight = 0.1 ∧
      10 ≤ (scoreTokenDiversity data).score ∧ (scoreTokenDiversity data).score ≤ 60 := by
  simp only [scoreTokenDiversity]
  split_ifs <;> refine ⟨rfl, by norm_num, by norm_num⟩

/-- The corroboration boost lies in [0, 20]. -/
lemma scamBoost_bounds (data : WalletData) :
    0 ≤ scamBoost data ∧ scamBoost data ≤ 20 := by
  simp only [scamBoost]
  split_ifs <;> norm_num

/-- Three or more flags boost by exactly 20. -/
lemma scamBoost_of_three (data : WalletData) (h : 3 ≤ data.scamFlags.length) :
    scamBoost data = 20 := by
  simp only [scamBoost]
  rw [if_pos h]

/-- Exactly one flag boosts by exactly 10. -/
lemma scamBoost_of_one (data : WalletData) (h : data.scamFlags.length = 1) :
    scamBoost data = 10 := by
  simp only [scamBoost, h]
  norm_num

/-- The weighted total written as the explicit seven-term sum. -/
lemma weightedTotal_eq (data : WalletData) :
    weightedTotal data =
      (scoreAccountAge data).score * (0.1 : ℚ) +
        (scoreTransactionVolume data).score * 0.15 +
        (scoreScamInteractions data).score * 0.25 +
        (scoreLargeTransfers data).score * 0.15 +
        (scoreContractApprovals data).score * 0.15 +
        (scoreFundingSource data).score * 0.1 +
        (scoreTokenDiversity data).score * 0.1 + scamBoost data := by
  have h1 := (scoreAccountAge_facts data).1
  have h2 := (scoreTransactionVolume_facts data).1
  have h3 := (scoreScamInteractions_facts data).1
  have h4 := (scoreLargeTransfers_facts data).1
  have h5 := (scoreContractApprovals_facts data).1
  have h6 := (scoreFundingSource_facts data).1
  have h7 := (scoreTokenDiversity_facts data).1
  simp only [weightedTotal, riskSignals, List.foldl_cons, List.foldl_nil]
  rw [h1, h2, h3, h4, h5, h6, h7]
  ring

/-- Clamp-after-round coincides with round-after-clamp on [0, 100]: the
source computes `max(0, min(100, Math.round(raw)))`, the spec states
`round(max(0, min(100, raw)))`; they agree. -/
lemma clamp_jsRound (q : ℚ) :
    max 0 (min 100 (jsRound q)) = jsRound (max 0 (min 100 q)) := by
  have hmono : ∀ x y : ℚ, x ≤ y → jsRound x ≤ jsRound y := fun x y h =>
    Int.floor_le_floor (by linarith)
  have h0 : jsRound (0 : ℚ) = 0 := by
    unfold jsRound
    rw [Int.floor_eq_iff]
    norm_num
  have h100 : jsRound (100 : ℚ) = 100 := by
    unfold jsRound
    rw [Int.floor_eq_iff]
    norm_num
  rcases le_total q 0 with hq | hq
  · have hle : jsRound q ≤ 0 := by
      have := hmono q 0 hq
      omega
    have hmax : max 0 (min 100 q) = 0 := by
      rw [min_eq_right (by linarith)]
      exact max_eq_left hq
    rw [hmax, h0]
    omega
  · rcases le_total q 100 with hq2 | hq2
    · have hl : 0 ≤ jsRound q := by
        have := hmono 0 q hq
        omega
      have hu : jsRound q ≤ 100 := by
        have := hmono q 100 hq2
        omega
      have hmid : max 0 (min 100 q) = q := by
        rw [min_eq_right hq2]
        exact max_eq_right hq
      rw [hmid]
      omega
    · have hge : 100 ≤ jsRound q := by
        have := hmono 100 q hq2
        omega
      have htop : max 0 (min 100 q) = 100 := by
        rw [min_eq_left hq2]
        exact max_eq_right (by norm_num)
      rw [htop, h100]
      omega

/-- C2: `computeRiskScore` always returns exactly 7 signals, their weights
sum to 1 (hence within floating-point tolerance `1e-9` of 1), the numeric
score lies in [0, 100], and the score equals
`round(max(0, min(100, rawScore)))`. -/
theorem computeRiskScore_seven_signals_clamped (data : WalletData) :
    (computeRiskScore data).signals.length = 7 ∧
      ((computeRiskScore data).signals.map (fun s => s.weight)).sum = 1 ∧
      |((computeRiskScore data).signals.map (fun s => s.weight)).sum - 1| ≤
        1 / 1000000000 ∧
      0 ≤ (computeRiskScore data).score ∧ (computeRiskScore data).score ≤ 100 ∧
      (computeRiskScore data).score = jsRound (max 0 (min 100 (weightedTotal data))) := by
  have hsum : ((computeRiskScore data).signals.map (fun s => s.weight)).sum = 1 := by
    rw [computeRiskScore_signals]
    simp only [riskSignals, List.map_cons, List.map_nil, List.sum_cons, List.sum_nil]
    rw [(scoreAccountAge_facts data).1, (scoreTransactionVolume_facts data).1,
      (scoreScamInteractions_facts data).1, (scoreLargeTransfers_facts data).1,
      (scoreContractApprovals_facts data).1, (scoreFundingSource_facts data).1,
      (scoreTokenDiversity_facts data).1]
    norm_num
  refine ⟨?_, hsum, ?_, ?_, ?_, ?_⟩
  · rw [computeRiskScore_signals]
    rfl
  · rw [hsum]
    norm_num
  · rw [computeRiskScore_score]
    exact le_max_left _ _
  · rw [computeRiskScore_score]
    have : min 100 (jsRound (weightedTotal data)) ≤ 100 := min_le_left _ _
    omega
  · rw [computeRiskScore_score]
    exact clamp_jsRound (weightedTotal data)

/-! ## Concrete wallets for the scorer claims -/

/-- A small incoming transfer from an unflagged counterparty. -/
def healthyIncomingTx : BasescanTransaction :=
  { blockNumber := jstr "1000000", timeStamp := 1000, hash := jstr "0xaaa",
    fromAddr := jstr "0xbbbbbbbbbbbbbbbbbbbbbbbbbbbbbbbbbbbbbbbb",
    toAddr := jstr "0x742d35Cc6634C0532925a3b844Bc9e7595f8b3a1",
    value := 10 ^ 17, gas := jstr "21000", gasUsed := jstr "21000",
    isError := jstr "0", functionName := jstr "", contractAddress := jstr "",
    input := jstr "0x" }

/-- A single ordinary token transfer. -/
def usdcTransfer : BasescanTokenTransfer :=
  { blockNumber := jstr "1000000", timeStamp := 1000, hash := jstr "0xccc",
    fromAddr := jstr "0xaaaaaaaaaaaaaaaaaaaaaaaaaaaaaaaaaaaaaaaa",
    toAddr := jstr "0xbbbbbbbbbbbbbbbbbbbbbbbbbbbbbbbbbbbbbbbb",
    value := 1000000, tokenName := jstr "USDC", tokenSymbol := jstr "USDC",
    tokenDecimal := jstr "6",
    contractAddress := jstr "0xdddddddddddddddddddddddddddddddddddddddd" }

/-- Three independent scam flags (as in the repository's own HIGH test). -/
def threeFlags : List ScamFlag :=
  [{ source := jstr "local", category := jstr "drainer",
     description := jstr "Known drainer" },
   { source := jstr "ChainAbuse", category := jstr "scam",
     description := jstr "Reported scam" },
   { source := jstr "local", category := jstr "phishing",
     description := jstr "Phishing address" }]

/-- A two-day-old, low-activity wallet with three scam flags (the
repository's own HIGH test vector; scores 72). -/
def dataThreeFlagsNew : WalletData :=
  { address := jstr "0x742d35Cc6634C0532925a3b844Bc9e7595f8b3a1",
    balance := 10 ^ 18, transactionCount := 2, transactions := [],
    tokenTransfers := [], internalTransactions := [],
    accountAge := some (2 * 86400), firstTxTimestamp := some 1000,
    isContract := false, scamFlags := threeFlags }

/-- A 200-day-old wallet with normal activity in every other signal, yet
carrying three scam flags (scores 51 — MEDIUM). -/
def dataThreeFlagsHealthy : WalletData :=
  { address := jstr "0x742d35Cc6634C0532925a3b844Bc9e7595f8b3a1",
    balance := 10 ^ 18, transactionCount := 50,
    transactions := [healthyIncomingTx], tokenTransfers := [usdcTransfer],
    internalTransactions := [], accountAge := some (200 * 86400),
    firstTxTimestamp := some 1000, isContract := false,
    scamFlags := threeFlags }

/-- The single mixer flag used by the MEDIUM claims. -/
def mixerFlag : ScamFlag :=
  { source := jstr "local", category := jstr "mixer",
    description := jstr "Mixer interaction" }

/-- A 15-day-old, low-activity wallet with one mixer flag (the repository's
own MEDIUM test vector; scores 44). -/
def dataOneMixerNew : WalletData :=
  { address := jstr "0x742d35Cc6634C0532925a3b844Bc9e7595f8b3a1",
    balance := 10 ^ 18, transactionCount := 3, transactions := [],
    tokenTransfers := [], internalTransactions := [],
    accountAge := some (15 * 86400), firstTxTimestamp := some 1000,
    isContract := false, scamFlags := [mixerFlag] }

/-- A 200-day-old wallet, normal in every other signal, with one mixer flag
(scores 26 — LOW). -/
def dataOneMixerHealthy : WalletData :=
  { address := jstr "0x742d35Cc6634C0532925a3b844Bc9e7595f8b3a1",
    balance := 10 ^ 18, transactionCount := 50,
    transactions := [healthyIncomingTx], tokenTransfers := [usdcTransfer],
    internalTransactions := [], accountAge := some (200 * 86400),
    firstTxTimestamp := some 1000, isContract := false,
    scamFlags := [mixerFlag] }

/-! ## C1 -/

/-- C1 counterexample: a snapshot with three scam flags whose other six
signals are all low-risk scores 51 — tier MEDIUM, not HIGH, and not above
60 — refuting "3+ flags always yields tier HIGH and score > 60". -/
theorem three_flags_not_always_high :
    3 ≤ dataThreeFlagsHealthy.scamFlags.length ∧
      (computeRiskScore dataThreeFlagsHealthy).level ≠ RiskLevel.HIGH ∧
      (computeRiskScore dataThreeFlagsHealthy).score ≤ 60 := by
  have h1 : (scoreAccountAge dataThreeFlagsHealthy).score = 10 := by
    simp only [scoreAccountAge, dataThreeFlagsHealthy]
    norm_num
  have h2 : (scoreTransactionVolume dataThreeFlagsHealthy).score = 10 := by decide
  have h3 : (scoreScamInteractions dataThreeFlagsHealthy).score = 100 :=
    scoreScamInteractions_of_three _ (by decide)
  have h4 : (scoreLargeTransfers dataThreeFlagsHealthy).score = 5 := by decide
  have h5 : (scoreContractApprovals dataThreeFlagsHealthy).score = 5 := by decide
  have h6 : (scoreFundingSource dataThreeFlagsHealthy).score = 10 := by decide
  have h7 : (scoreTokenDiversity dataThreeFlagsHealthy).score = 10 := by decide
  have hb : scamBoost dataThreeFlagsHealthy = 20 := scamBoost_of_three _ (by decide)
  have hwt : weightedTotal dataThreeFlagsHealthy = 51 := by
    rw [weightedTotal_eq, h1, h2, h3, h4, h5, h6, h7, hb]
    norm_num
  have hjr : jsRound (51 : ℚ) = 51 := by
    unfold jsRound
    rw [Int.floor_eq_iff]
    norm_num
  refine ⟨by decide, ?_, ?_⟩
  · rw [computeRiskScore_level, hwt, hjr]
    rw [if_neg (by omega), if_pos (by omega)]
    decide
  · rw [computeRiskScore_score, hwt, hjr]
    omega

/-- C1 (amended): with three or more scam flags the scam signal contributes
its maximum 25 and the corroboration boost 20, so the score is at least 51
(and at most 100) and the tier is MEDIUM or HIGH — but HIGH itself is not
guaranteed for all values of the other six signals. -/
theorem computeRiskScore_three_flags_at_least_medium (data : WalletData)
    (h : 3 ≤ data.scamFlags.length) :
    51 ≤ (computeRiskScore data).score ∧ (computeRiskScore data).score ≤ 100 ∧
      ((computeRiskScore data).level = RiskLevel.MEDIUM ∨
        (computeRiskScore data).level = RiskLevel.HIGH) := by
  have hwt : (51 : ℚ) ≤ weightedTotal data := by
    rw [weightedTotal_eq]
    have h1 := (scoreAccountAge_facts data).2.1
    have h2 := (scoreTransactionVolume_facts data).2.1
    have h3 := scoreScamInteractions_of_three data h
    have h4 := (scoreLargeTransfers_facts data).2.1
    have h5 := (scoreContractApprovals_facts data).2.1
    have h6 := (scoreFundingSource_facts data).2.1
    have h7 := (scoreTokenDiversity_facts data).2.1
    have hb := scamBoost_of_three data h
    rw [h3, hb]
    linarith
  have hr : (51 : ℤ) ≤ jsRound (weightedTotal data) := by
    unfold jsRound
    rw [Int.le_floor]
    push_cast
    linarith
  have hs := computeRiskScore_score data
  refine ⟨by rw [hs]; omega, by rw [hs]; omega, ?_⟩
  rw [computeRiskScore_level]
  rw [if_neg (by omega)]
  by_cases hc : max 0 (min 100 (jsRound (weightedTotal data))) ≤ 60
  · rw [if_pos hc]
    exact Or.inl rfl
  · rw [if_neg hc]
    exact Or.inr rfl

/-- C1 witness: the repository's HIGH test wallet (three flags, two days
old) — score between 51 and 100 and tier MEDIUM-or-HIGH. -/
theorem computeRiskScore_three_flags_at_least_medium_witness :
    51 ≤ (computeRiskScore dataThreeFlagsNew).score ∧
      (computeRiskScore dataThreeFlagsNew).score ≤ 100 ∧
      ((computeRiskScore dataThreeFlagsNew).level = RiskLevel.MEDIUM ∨
        (computeRiskScore dataThreeFlagsNew).level = RiskLevel.HIGH) :=
  computeRiskScore_three_flags_at_least_medium dataThreeFlagsNew (by decide)

/-! ## C3 -/

/-- C3 counterexample: a wallet with exactly one mixer flag, 200 days old,
normal in every other signal, scores 26 — tier LOW, not MEDIUM — refuting
"1 mixer flag and age ≥ 7 days always yields MEDIUM (score in (30, 60])". -/
theorem one_mixer_flag_age7_not_always_medium :
    dataOneMixerHealthy.scamFlags.map (fun f => f.category) = [jstr "mixer"] ∧
      dataOneMixerHealthy.accountAge = some 17280000 ∧
      604800 ≤ 17280000 ∧
      (computeRiskScore dataOneMixerHealthy).level = RiskLevel.LOW ∧
      (computeRiskScore dataOneMixerHealthy).score ≤ 30 := by
  have h1 : (scoreAccountAge dataOneMixerHealthy).score = 10 := by
    simp only [scoreAccountAge, dataOneMixerHealthy]
    norm_num
  have h2 : (scoreTransactionVolume dataOneMixerHealthy).score = 10 := by decide
  have h3 : (scoreScamInteractions dataOneMixerHealthy).score = 40 :=
    scoreScamInteractions_of_one _ (by decide)
  have h4 : (scoreLargeTransfers dataOneMixerHealthy).score = 5 := by decide
  have h5 : (scoreContractApprovals dataOneMixerHealthy).score = 5 := by decide
  have h6 : (scoreFundingSource dataOneMixerHealthy).score = 10 := by decide
  have h7 : (scoreTokenDiversity dataOneMixerHealthy).score = 10 := by decide
  have hb : scamBoost dataOneMixerHealthy = 10 := scamBoost_of_one _ (by decide)
  have hwt : weightedTotal dataOneMixerHealthy = 26 := by
    rw [weightedTotal_eq, h1, h2, h3, h4, h5, h6, h7, hb]
    norm_num
  have hjr : jsRound (26 : ℚ) = 26 := by
    unfold jsRound
    rw [Int.floor_eq_iff]
    norm_num
  refine ⟨by decide, rfl, by norm_num, ?_, ?_⟩
  · rw [computeRiskScore_level, hwt, hjr]
    rw [if_pos (by omega)]
  · rw [computeRiskScore_score, hwt, hjr]
    omega

/-- C3 (amended): with exactly one scam flag of category "mixer" and account
age at least 7 days, the score lies in [26, 73]; the tier is therefore not
pinned to MEDIUM — an otherwise healthy wallet lands at 26 (LOW). -/
theorem computeRiskScore_one_mixer_flag_age7_bounds (data : WalletData)
    (hmix : data.scamFlags.map (fun f => f.category) = [jstr "mixer"])
    (a : ℕ) (ha : data.accountAge = some a) (h7 : 604800 ≤ a) :
    26 ≤ (computeRiskScore data).score ∧ (computeRiskScore data).score ≤ 73 := by
  have hlen : data.scamFlags.length = 1 := by
    have := congrArg List.length hmix
    simpa using this
  obtain ⟨hage_lo, hage_hi⟩ := scoreAccountAge_age7 data a ha h7
  have hwt_lo : (26 : ℚ) ≤ weightedTotal data := by
    rw [weightedTotal_eq]
    have h2 := (scoreTransactionVolume_facts data).2.1
    have h3 := scoreScamInteractions_of_one data hlen
    have h4 := (scoreLargeTransfers_facts data).2.1
    have h5 := (scoreContractApprovals_facts data).2.1
    have h6 := (scoreFundingSource_facts data).2.1
    have h7' := (scoreTokenDiversity_facts data).2.1
    have hb := scamBoost_of_one data hlen
    rw [h3, hb]
    linarith
  have hwt_hi : weightedTotal data ≤ 72.5 := by
    rw [weightedTotal_eq]
    have h2 := (scoreTransactionVolume_facts data).2.2
    have h3 := scoreScamInteractions_of_one data hlen
    have h4 := (scoreLargeTransfers_facts data).2.2
    have h5 := (scoreContractApprovals_facts data).2.2
    have h6 := (scoreFundingSource_facts data).2.2
    have h7' := (scoreTokenDiversity_facts data).2.2
    have hb := scamBoost_of_one data hlen
    rw [h3, hb]
    norm_num
    linarith
  have hr_lo : (26 : ℤ) ≤ jsRound (weightedTotal data) := by
    unfold jsRound
    rw [Int.le_floor]
    push_cast
    linarith
  have hr_hi : jsRound (weightedTotal data) ≤ 73 := by
    have h73 : jsRound (73 : ℚ) = 73 := by
      unfold jsRound
      rw [Int.floor_eq_iff]
      norm_num
    calc jsRound (weightedTotal data) ≤ jsRound 73 :=
          Int.floor_le_floor (by linarith)
      _ = 73 := h73
  have hs := computeRiskScore_score data
  exact ⟨by rw [hs]; omega, by rw [hs]; omega⟩

/-- C3 witness: the repository's MEDIUM test wallet (one mixer flag, 15
days old, low activity) — its score (44) lies within [26, 73]. -/
theorem computeRiskScore_one_mixer_flag_age7_bounds_witness :
    26 ≤ (computeRiskScore dataOneMixerNew).score ∧
      (computeRiskScore dataOneMixerNew).score ≤ 73 :=
  computeRiskScore_one_mixer_flag_age7_bounds dataOneMixerNew (by decide)
    (15 * 86400) rfl (by norm_num)

/-! ## Configuration (src/config.ts) -/

/-- `config.maxReportLength` — the Farcaster cast byte limit. -/
def maxReportLength : ℕ := 1024

/-- `config.disclaimer` — appended to every report. -/
def configDisclaimer : JSStr :=
  jstr "⚠️ Not financial advice. Onchain data is public but interpretations are probabilistic — DYOR."

/-- `config.cacheTtlSeconds` — report cache TTL (seconds). -/
def cacheTtlSeconds : ℕ := 300

/-! ## Report formatter (src/services/reportGenerator.ts) -/

/-- UTF-8 byte count of a JS string (`new TextEncoder().encode(s).length`). -/
def byteLen (s : JSStr) : ℕ := (s.map Char.utf8Size).sum

/-- Risk level emoji mapping (src/types/index.ts). -/
def RISK_EMOJI : RiskLevel → JSStr
  | .LOW => jstr "🟢"
  | .MEDIUM => jstr "🟡"
  | .HIGH => jstr "🔴"

/-- String value of a `RiskLevel` under JS template interpolation. -/
def riskLevelText : RiskLevel → JSStr
  | .LOW => jstr "LOW"
  | .MEDIUM => jstr "MEDIUM"
  | .HIGH => jstr "HIGH"

/-- Top wallet interactions. -/
structure TopInteraction where
  address : JSStr
  label : Option JSStr := none
  txCount : ℕ
deriving DecidableEq, Repr

/-- Full wallet analysis result (the `chain` field is the literal `'Base'`). -/
structure WalletReport where
  address : JSStr
  chain : JSStr := jstr "Base"
  riskLevel : RiskLevel
  riskScore : ℤ
  confidence : ℤ
  signals : List RiskSignal
  summary : JSStr
  keyFindings : List JSStr
  topInteractions : List TopInteraction
  recommendations : List JSStr
  disclaimer : JSStr
  analyzedAt : JSStr
  responseTimeMs : ℤ
deriving DecidableEq, Repr

/-- `shortenAddress(address, chars = 4)`: `slice(0, chars + 2) + '...' +
slice(-chars)`. -/
def shortenAddress (address : JSStr) (chars : ℕ) : JSStr :=
  address.take (chars + 2) ++ jstr "..." ++ address.drop (address.length - chars)

/-- `i.label || shortenAddress(i.address)` — JS falsiness sends both an
absent and an empty label to the fallback. -/
def interactionLabel (i : TopInteraction) : JSStr :=
  match i.label with
  | some l => if l = [] then shortenAddress i.address 4 else l
  | none => shortenAddress i.address 4

/-- `String.prototype.lastIndexOf` for one character (−1 when absent). -/
def lastIndexOf (c : Char) (s : JSStr) : ℤ :=
  match s.reverse.findIdx? (· = c) with
  | none => -1
  | some j => (s.length : ℤ) - 1 - (j : ℤ)

/-- The `while (encoder.encode(truncated).length > availableBytes)` loop of
`truncateToByteLimit`: drop ten UTF-16 units (here: ten code points) from the
end until within budget.  The `t = []` disjunct mirrors the loop's only exit
when the budget is negative — unreachable under the fixed configuration,
where `availableBytes ≥ 0` (the source would spin forever there). -/
def truncLoop (avail : ℤ) (t : JSStr) : JSStr :=
  if h : (byteLen t : ℤ) ≤ avail ∨ t = [] then t
  else truncLoop avail (t.take (t.length - 10))
termination_by t.length
decreasing_by
  push_neg at h
  have hne : t.length ≠ 0 := by
    simpa [List.length_eq_zero] using h.2
  simp only [List.length_take]
  omega

/-- `truncateToByteLimit(text, maxBytes)`: reserve the disclaimer's byte
cost up front, trim the body, prefer cutting at the last newline past 70%
of the retained length, then append an ellipsis and the disclaimer. -/
def truncateToByteLimit (text : JSStr) (maxBytes : ℕ) : JSStr :=
  let disclaimer := jstr "\n\n" ++ configDisclaimer
  let disclaimerBytes := byteLen disclaimer
  let availableBytes : ℤ := (maxBytes : ℤ) - disclaimerBytes - 3
  let truncated := truncLoop availableBytes text
  let lastNewline := lastIndexOf '\n' truncated
  let truncated₂ :=
    if 0.7 * (truncated.length : ℚ) < (lastNewline : ℚ) then
      truncated.take lastNewline.toNat
    else truncated
  truncated₂ ++ jstr "..." ++ disclaimer

/-- The cast text assembled by `formatForCast` before the byte-limit check:
header, address line, risk line, truncated summary, up to three findings,
up to two interactions. -/
def assembleCastBody (report : WalletReport) : JSStr :=
  let emoji := RISK_EMOJI report.riskLevel
  let addr := shortenAddress report.address 4
  let cast₁ := jstr "🔍 Tell-Tale Bot — Wallet Report\n\n"
  let cast₂ := cast₁ ++ jstr "📍 " ++ addr ++ jstr " | Base\n"
  let cast₃ := cast₂ ++ emoji ++ jstr " " ++ riskLevelText report.riskLevel ++
    jstr " RISK (" ++ intStr report.riskScore ++ jstr "/100)\n\n"
  let summary :=
    if 300 < report.summary.length then report.summary.take 297 ++ jstr "..."
    else report.summary
  let cast₄ := cast₃ ++ summary ++ jstr "\n\n"
  let cast₅ :=
    if 0 < report.keyFindings.length then
      cast₄ ++ List.intercalate (jstr "\n")
          ((report.keyFindings.take 3).map fun f => jstr "• " ++ f) ++
        jstr "\n\n"
    else cast₄
  if 0 < report.topInteractions.length then
    cast₅ ++ List.intercalate (jstr "\n")
        ((report.topInteractions.take 2).map fun i =>
          jstr "↔ " ++ interactionLabel i ++ jstr " (" ++ natStr i.txCount ++
            jstr " txs)") ++
      jstr "\n\n"
  else cast₅

/-- `formatForCast(report)`: append the disclaimer, then enforce the byte
ceiling. -/
def formatForCast (report : WalletReport) : JSStr :=
  let cast := assembleCastBody report ++ report.disclaimer
  if maxReportLength < byteLen cast then truncateToByteLimit cast maxReportLength
  else cast

/-- UTF-8 byte count distributes over concatenation. -/
lemma byteLen_append (a b : JSStr) : byteLen (a ++ b) = byteLen a + byteLen b := by
  simp [byteLen]

/-- A prefix never has more UTF-8 bytes than the whole string. -/
lemma byteLen_take_le (n : ℕ) (l : JSStr) : byteLen (l.take n) ≤ byteLen l := by
  conv_rhs => rw [← List.take_append_drop n l]
  rw [byteLen_append]
  omega

/-- With a nonnegative budget the truncation loop lands within budget. -/
lemma truncLoop_le (avail : ℤ) (h : 0 ≤ avail) (t : JSStr) :
    (byteLen (truncLoop avail t) : ℤ) ≤ avail := by
  have key : ∀ n, ∀ t : JSStr, t.length ≤ n → (byteLen (truncLoop avail t) : ℤ) ≤ avail := by
    intro n
    induction n with
    | zero =>
        intro t ht
        have hnil : t = [] := by
          simpa [List.length_eq_zero] using Nat.le_zero.mp ht
        subst hnil
        rw [truncLoop]
        simp [byteLen, h]
    | succ n ih =>
        intro t ht
        rw [truncLoop]
        split
        · next h' =>
            rcases h' with h' | rfl
            · exact h'
            · simpa [byteLen] using h
        · next h' =>
            push_neg at h'
            have hne : t.length ≠ 0 := by
              simpa [List.length_eq_zero] using h'.2
            apply ih
            simp only [List.length_take]
            omega
  exact key t.length t le_rfl

/-- The byte length of `"\n\n" + disclaimer` (2 + 97-byte UTF-8 text). -/
lemma byteLen_disclaimer_block : byteLen (jstr "\n\n" ++ configDisclaimer) = 101 := by decide

/-- Appending `"..."` and the reserved disclaimer block always leaves the
disclaimer as the final segment. -/
lemma append_disclaimer_suffix (x : JSStr) :
    ∃ pre, x ++ jstr "..." ++ (jstr "\n\n" ++ configDisclaimer) = pre ++ configDisclaimer :=
  ⟨x ++ jstr "..." ++ jstr "\n\n", by simp [List.append_assoc]⟩

/-- `truncateToByteLimit` at the default ceiling: the output fits in 1024
bytes and ends with the disclaimer. -/
lemma truncateToByteLimit_spec (text : JSStr) :
    byteLen (truncateToByteLimit text 1024) ≤ 1024 ∧
      ∃ pre, truncateToByteLimit text 1024 = pre ++ configDisclaimer := by
  constructor
  · simp only [truncateToByteLimit]
    rw [byteLen_append, byteLen_append]
    set avail : ℤ :=
      (((1024 : ℕ) : ℤ) - (byteLen (jstr "\n\n" ++ configDisclaimer) : ℤ)) - 3 with havaildef
    set t1 : JSStr := truncLoop avail text with ht1def
    have hdB := byteLen_disclaimer_block
    have hdots : byteLen (jstr "...") = 3 := by decide
    have havail : (0 : ℤ) ≤ avail := by
      rw [havaildef]
      omega
    have hloop : (byteLen t1 : ℤ) ≤ avail := by
      rw [ht1def]
      exact truncLoop_le _ havail text
    split
    · next =>
        have htake := byteLen_take_le (lastIndexOf '\n' t1).toNat t1
        omega
    · next =>
        omega
  · simp only [truncateToByteLimit]
    exact append_disclaimer_suffix _

/-- C4: `formatForCast` output never exceeds the configured 1024-byte
ceiling and always ends with the disclaimer text; the disclaimer is never
truncated away because its byte cost is reserved before the truncation loop
runs. -/
theorem formatForCast_byte_bound (report : WalletReport)
    (hd : report.disclaimer = configDisclaimer) :
    byteLen (formatForCast report) ≤ maxReportLength ∧
      ∃ pre, formatForCast report = pre ++ configDisclaimer := by
  simp only [formatForCast]
  split
  · next =>
      obtain ⟨h1, h2⟩ := truncateToByteLimit_spec (assembleCastBody report ++ report.disclaimer)
      exact ⟨h1, h2⟩
  · next h =>
      push_neg at h
      refine ⟨h, assembleCastBody report, ?_⟩
      rw [hd]

/-- C4 witness: a concrete small report — its rendered cast is within 1024
bytes and ends in the disclaimer. -/
theorem formatForCast_byte_bound_witness :
    byteLen (formatForCast
        { address := jstr "0x742d35Cc6634C0532925a3b844Bc9e7595f8b3a1",
          riskLevel := RiskLevel.LOW, riskScore := 12, confidence := 85,
          signals := [], summary := jstr "This wallet appears low-risk.",
          keyFindings := [jstr "Total transactions: 75"],
          topInteractions := [], recommendations := [],
          disclaimer := configDisclaimer, analyzedAt := jstr "2026-01-01",
          responseTimeMs := 1200 }) ≤ maxReportLength ∧
      ∃ pre, formatForCast
          { address := jstr "0x742d35Cc6634C0532925a3b844Bc9e7595f8b3a1",
            riskLevel := RiskLevel.LOW, riskScore := 12, confidence := 85,
            signals := [], summary := jstr "This wallet appears low-risk.",
            keyFindings := [jstr "Total transactions: 75"],
            topInteractions := [], recommendations := [],
            disclaimer := configDisclaimer, analyzedAt := jstr "2026-01-01",
            responseTimeMs := 1200 } = pre ++ configDisclaimer :=
  formatForCast_byte_bound _ rfl

/-! ## Keccak-256 and EIP-55 checksumming (viem `getAddress`, used by
src/utils/address.ts) -/

/-- Rotate a 64-bit lane left by `n` (for `0 ≤ n < 64`). -/
def rotl64 (x n : ℕ) : ℕ := ((x <<< n) % 2 ^ 64) ||| (x >>> (64 - n))

/-- 64-bit bitwise complement. -/
def not64 (x : ℕ) : ℕ := x ^^^ (2 ^ 64 - 1)

/-- Keccak θ step on the 5×5 lane state (index `x + 5y`). -/
def keccakTheta (st : List ℕ) : List ℕ :=
  let C := (List.range 5).map fun x =>
    st.getD x 0 ^^^ st.getD (x + 5) 0 ^^^ st.getD (x + 10) 0 ^^^
      st.getD (x + 15) 0 ^^^ st.getD (x + 20) 0
  let D := (List.range 5).map fun x =>
    C.getD ((x + 4) % 5) 0 ^^^ rotl64 (C.getD ((x + 1) % 5) 0) 1
  (List.range 25).map fun i => st.getD i 0 ^^^ D.getD (i % 5) 0

/-- The FIPS 202 ρ-offset walk: start at lane (1, 0), step
`(x, y) ↦ (y, (2x + 3y) mod 5)`, assigning offset `(t+1)(t+2)/2 mod 64` at
step `t`. -/
def rhoWalk : (ℕ × ℕ) × List ((ℕ × ℕ) × ℕ) :=
  (List.range 24).foldl
    (fun st t =>
      let p := st.1
      ((p.2, (2 * p.1 + 3 * p.2) % 5), st.2 ++ [(p, (t + 1) * (t + 2) / 2 % 64)]))
    ((1, 0), [])

/-- Keccak ρ rotation offsets for lane `x + 5y` (lane 0 rotates by 0). -/
def rhoOffsets : List ℕ :=
  (List.range 25).map fun i =>
    ((rhoWalk.2.find? fun e => e.1 = (i % 5, i / 5)).map Prod.snd).getD 0

/-- Keccak combined ρ and π steps: `B[y, 2x+3y] = rotl(A[x, y], r[x, y])`. -/
def keccakRhoPi (st : List ℕ) : List ℕ :=
  (List.range 25).foldl
    (fun B i =>
      let x := i % 5
      let y := i / 5
      B.set (y + 5 * ((2 * x + 3 * y) % 5)) (rotl64 (st.getD i 0) (rhoOffsets.getD i 0)))
    (List.replicate 25 0)

/-- Keccak χ step. -/
def keccakChi (st : List ℕ) : List ℕ :=
  (List.range 25).map fun i =>
    let x := i % 5
    let y := i / 5
    st.getD i 0 ^^^ (not64 (st.getD ((x + 1) % 5 + 5 * y) 0) &&& st.getD ((x + 2) % 5 + 5 * y) 0)

/-- Bit `t` of the FIPS 202 `rc` LFSR (polynomial x⁸ + x⁶ + x⁵ + x⁴ + 1). -/
def rcBit (t : ℕ) : ℕ :=
  ((List.range t).foldl (fun R _ => ((R <<< 1) ^^^ ((R >>> 7) * 0x71)) &&& 255) 1) &&& 1

/-- Keccak round constants, `RC[i] = Σⱼ rc(7i + j) · 2^(2^j − 1)`. -/
def keccakRC : List ℕ :=
  (List.range 24).map fun i =>
    (List.range 7).foldl (fun acc j => acc ||| (rcBit (7 * i + j) <<< (2 ^ j - 1))) 0

/-- One Keccak-f round followed by the ι constant. -/
def keccakRound (st : List ℕ) (rc : ℕ) : List ℕ :=
  let st₁ := keccakChi (keccakRhoPi (keccakTheta st))
  st₁.set 0 (st₁.getD 0 0 ^^^ rc)

/-- The Keccak-f[1600] permutation. -/
def keccakF (st : List ℕ) : List ℕ := keccakRC.foldl keccakRound st

/-- Lane `j` of a 136-byte rate block, little-endian. -/
def bytesToLane (bytes : List ℕ) (j : ℕ) : ℕ :=
  (List.range 8).foldr (fun k acc => bytes.getD (8 * j + k) 0 + 256 * acc) 0

/-- Keccak-256 of a message of at most 134 bytes (single rate block; the
addresses hashed here are 40 ASCII bytes).  Original Keccak `0x01` padding,
as used by Ethereum, not the SHA-3 `0x06` variant. -/
def keccak256 (msg : List ℕ) : List ℕ :=
  let padded := msg ++ [0x01] ++ List.replicate (136 - msg.length - 2) 0 ++ [0x80]
  let st0 := (List.range 25).map fun j => if j < 17 then bytesToLane padded j else 0
  let st := keccakF st0
  (List.range 32).map fun i => (st.getD (i / 8) 0 >>> (8 * (i % 8))) % 256

/-- Uppercase an ASCII lowercase letter. -/
def toUpperChar (c : Char) : Char :=
  if 'a' ≤ c ∧ c ≤ 'z' then Char.ofNat (c.toNat - 32) else c

/-- EIP-55 checksum of a 40-character lowercase hex string: a hex letter is
uppercased exactly when the corresponding nibble of the Keccak-256 hash of
the (ASCII) hex string is at least 8. -/
def checksumAddress (lower40 : JSStr) : JSStr :=
  let hash := keccak256 (lower40.map Char.toNat)
  (List.range lower40.length).map fun i =>
    let nibble := if i % 2 = 0 then hash.getD (i / 2) 0 / 16 else hash.getD (i / 2) 0 % 16
    if 8 ≤ nibble then toUpperChar (lower40.getD i ' ') else lower40.getD i ' '

/-- viem `getAddress`: lowercase the 40 hex characters after `0x`, then
apply the EIP-55 checksum. -/
def getAddress (address : JSStr) : JSStr :=
  jstr "0x" ++ checksumAddress (toLower (address.drop 2))

/-- Hex-digit character class of the address regex. -/
def isHexDigit (c : Char) : Bool :=
  ('0' ≤ c ∧ c ≤ '9') ∨ ('a' ≤ c ∧ c ≤ 'f') ∨ ('A' ≤ c ∧ c ≤ 'F')

/-- Try to match `/0x[a-fA-F0-9]{40}/` at the head of the text. -/
def matchAddressAt (s : JSStr) : Option JSStr :=
  match s with
  | '0' :: 'x' :: rest =>
      if 40 ≤ rest.length ∧ (rest.take 40).all isHexDigit then
        some ('0' :: 'x' :: rest.take 40)
      else none
  | _ => none

/-- Leftmost match of the address regex (JS `String.prototype.match`). -/
def findAddressCandidate : JSStr → Option JSStr
  | [] => none
  | c :: rest =>
      match matchAddressAt (c :: rest) with
      | some m => some m
      | none => findAddressCandidate rest

/-- viem `isAddress(raw, { strict: false })`: the `^0x[a-fA-F0-9]{40}$`
shape check (no checksum validation in non-strict mode). -/
def isAddress (s : JSStr) : Bool :=
  s.length = 42 && jsStartsWith s (jstr "0x") && (s.drop 2).all isHexDigit

/-- `extractAddress` (src/utils/address.ts): first regex match, shape
check, then `getAddress` — the checksummed form.  (`getAddress` cannot
throw on a pattern-valid input, so the `catch → null` branch is dead.) -/
def extractAddress (text : JSStr) : Option JSStr :=
  match findAddressCandidate text with
  | none => none
  | some raw => if isAddress raw then some (getAddress raw) else none

/-! ## runAnalysis cache insertion (src/index.ts) -/

/-- The cache-insertion step of `runAnalysis`:
`reportCache.set(address, report)` — the key is the `address` argument
exactly as received from `extractAddress` (no lowercasing); the cache TTL is
`config.cacheTtlSeconds * 1000` milliseconds. -/
def runAnalysisCacheInsert (cache : TtlCacheState WalletReport) (now : ℕ)
    (address : JSStr) (report : WalletReport) : TtlCacheState WalletReport :=
  ttlSet cache (cacheTtlSeconds * 1000) now address report

/-- A completed report for the flagged seed address. -/
def sampleReport : WalletReport :=
  { address := jstr "0xfbFEE3CD66697758164bFD36e3cA0Ea73480E9a2",
    riskLevel := RiskLevel.HIGH, riskScore := 72, confidence := 80,
    signals := [], summary := jstr "This wallet has multiple red flags.",
    keyFindings := [], topInteractions := [], recommendations := [],
    disclaimer := configDisclaimer, analyzedAt := jstr "2026-01-01",
    responseTimeMs := 900 }

/-- C5 counterexample: for the lowercase input address, `extractAddress`
returns the EIP-55 checksummed (mixed-case) form; `runAnalysis` inserts the
report under that exact string, which is not the lowercase form, and a
lookup under the lowercase form misses — refuting "the cache is keyed by
the lowercase form of the address". -/
theorem runAnalysis_cache_key_not_lowercase :
    extractAddress (jstr "0xfbfee3cd66697758164bfd36e3ca0ea73480e9a2") =
        some (jstr "0xfbFEE3CD66697758164bFD36e3cA0Ea73480E9a2") ∧
      toLower (jstr "0xfbFEE3CD66697758164bFD36e3cA0Ea73480E9a2") ≠
        jstr "0xfbFEE3CD66697758164bFD36e3cA0Ea73480E9a2" ∧
      (ttlGet (runAnalysisCacheInsert (ttlEmpty WalletReport) 0
          (jstr "0xfbFEE3CD66697758164bFD36e3cA0Ea73480E9a2") sampleReport) 0
        (toLower (jstr "0xfbFEE3CD66697758164bFD36e3cA0Ea73480E9a2"))).1 = none := by
  have hne : toLower (jstr "0xfbFEE3CD66697758164bFD36e3cA0Ea73480E9a2") ≠
      jstr "0xfbFEE3CD66697758164bFD36e3cA0Ea73480E9a2" := by decide
  refine ⟨by set_option maxRecDepth 100000 in decide, hne, ?_⟩
  have hkey : ttlSet (ttlEmpty WalletReport) (cacheTtlSeconds * 1000) 0
      (jstr "0xfbFEE3CD66697758164bFD36e3cA0Ea73480E9a2") sampleReport
      (toLower (jstr "0xfbFEE3CD66697758164bFD36e3cA0Ea73480E9a2")) = none := by
    simp only [ttlSet, ttlEmpty]
    rw [if_neg hne]
  simp only [runAnalysisCacheInsert, ttlGet, hkey]

/-- C5 (amended): `runAnalysis` inserts the completed report into the
expiring cache keyed by the address string exactly as returned by
`extractAddress` — the checksummed form, not the lowercase form — and
lookups use that same checksummed key, so an immediate lookup under it
returns the report. -/
theorem runAnalysis_cache_keyed_by_extracted_address
    (text addr : JSStr) (h : extractAddress text = some addr)
    (cache : TtlCacheState WalletReport) (now : ℕ) (report : WalletReport) :
    (ttlGet (runAnalysisCacheInsert cache now addr report) now addr).1 =
      some report := by
  have hkey : ttlSet cache (cacheTtlSeconds * 1000) now addr report addr =
      some (report, now + cacheTtlSeconds * 1000) := by
    simp [ttlSet]
  simp only [runAnalysisCacheInsert, ttlGet, hkey]
  rw [if_neg (by omega)]

/-- C5 witness: the report cached for the extracted checksummed seed
address is retrievable under that same key. -/
theorem runAnalysis_cache_keyed_by_extracted_address_witness :
    (ttlGet (runAnalysisCacheInsert (ttlEmpty WalletReport) 0
        (jstr "0xfbFEE3CD66697758164bFD36e3cA0Ea73480E9a2") sampleReport) 0
      (jstr "0xfbFEE3CD66697758164bFD36e3cA0Ea73480E9a2")).1 = some sampleReport :=
  runAnalysis_cache_keyed_by_extracted_address
    (jstr "0xfbfee3cd66697758164bfd36e3ca0ea73480e9a2")
    (jstr "0xfbFEE3CD66697758164bFD36e3cA0Ea73480E9a2")
    (by set_option maxRecDepth 100000 in decide)
    (ttlEmpty WalletReport) 0 sampleReport

end TellTale
